import Mathlib

/-!
Shallow embedding of the translation-engine core of the
Ebook-Translator-Calibre-Plugin repository (files `engines/base.py`,
`engines/openai.py`, `engines/openai_new.py`, `engines/openai_variants.py`),
together with proofs about the embedded operations.

Python values that can appear in decoded JSON are modelled by the inductive
type `ET.Json`; Python strings are Lean `String`s; Python lists are Lean
`List`s; a Python `dict` is an association list with string keys.  Fallible
Python code (code that can raise) is modelled with `Except String`, the
error string standing for the text of the raised exception.
-/

namespace ET

/-! ## Generic Python-style string helpers -/

/-- Python's `str.startswith(p)`: `p` is a prefix of `s`.  Defined on the
character lists so that it evaluates by kernel reduction. -/
def strStartsWith (s p : String) : Bool :=
  p.toList.isPrefixOf s.toList

/-- The whitespace characters stripped by Python's `str.strip()` (for the
ASCII range; the additional Unicode whitespace handled by CPython does not
occur in any of the protocol constants involved here). -/
def pyWhitespace (c : Char) : Bool :=
  c = ' ' || c = '\t' || c = '\n' || c = '\x0d' || c = '\x0b' || c = '\x0c'

/-- Python's `str.strip()` with no arguments: remove leading and trailing
whitespace. -/
def pyStrip (s : String) : String :=
  let l := s.toList.dropWhile pyWhitespace
  String.mk ((l.reverse.dropWhile pyWhitespace).reverse)

/-- Remainder of `l` after the first occurrence of `sep`, or `none` when
`sep` does not occur: this is what Python's `l.split(sep, 1)[1]` returns
(with `none` standing for the `IndexError` raised on a single-element
split result). -/
def splitRemainderAux (sep : List Char) : List Char → Option (List Char)
  | [] => if sep.isEmpty then some [] else none
  | a :: t =>
    if sep.isPrefixOf (a :: t) then some ((a :: t).drop sep.length)
    else splitRemainderAux sep t

/-- String version of `splitRemainderAux`. -/
def splitRemainder (sep s : String) : Option String :=
  (splitRemainderAux sep.toList s.toList).map String.mk

/-- Boolean infix (contiguous-sublist) test, modelling Python's
`needle in haystack` on strings. -/
def listInfixB [DecidableEq α] (needle : List α) : List α → Bool
  | [] => decide (needle = [])
  | a :: t => needle.isPrefixOf (a :: t) || listInfixB needle t

/-- Python's `needle in haystack` substring test. -/
def strContains (haystack needle : String) : Bool :=
  listInfixB needle.toList haystack.toList

theorem listInfixB_iff_isInfix [DecidableEq α] (needle hay : List α) :
    listInfixB needle hay = true ↔ needle <:+: hay := by
  induction hay with
  | nil =>
    simp only [listInfixB, decide_eq_true_eq]
    exact ⟨fun h => h ▸ List.infix_rfl, fun h => List.eq_nil_of_infix_nil h⟩
  | cons a t ih =>
    simp only [listInfixB, Bool.or_eq_true, List.isPrefixOf_iff_prefix, ih,
      List.infix_cons_iff]

/-- `strContains` is exactly the substring (contiguous) relation on the
underlying character lists. -/
theorem strContains_iff (haystack needle : String) :
    strContains haystack needle = true ↔ needle.toList <:+: haystack.toList :=
  listInfixB_iff_isInfix _ _

/-! ## A model of decoded JSON / Python values -/

/-- Decoded JSON values (equivalently the Python values produced by
`json.loads`): `null`/`None`, booleans, numbers, strings, lists, and
string-keyed dicts. -/
inductive Json where
  | null : Json
  | bool (b : Bool) : Json
  | num (q : Rat) : Json
  | str (s : String) : Json
  | arr (elems : List Json) : Json
  | obj (fields : List (String × Json)) : Json

/-- Python truthiness of a decoded JSON value: `None`, `False`, `0`, `''`,
`[]` and `{}` are falsy, everything else is truthy. -/
def truthy : Json → Bool
  | .null => false
  | .bool b => b
  | .num q => q ≠ 0
  | .str s => s ≠ ""
  | .arr l => !l.isEmpty
  | .obj l => !l.isEmpty

/-- `d.get(k)` on a dict: value of the first binding of `k`, if any. -/
def jGet (o : List (String × Json)) (k : String) : Option Json :=
  match o.find? (fun kv => kv.1 == k) with
  | some kv => some kv.2
  | none => none

/-- `d.get(k)` restricted to string values: `some s` exactly when `k` is
bound to the string `s` (used to model `==` comparisons against string
literals, which no non-string value can satisfy). -/
def jGetStr (o : List (String × Json)) (k : String) : Option String :=
  match jGet o k with
  | some (.str s) => some s
  | _ => none

mutual

/-- Python's `str()` applied to a decoded JSON value.  Scalar renderings
match CPython exactly; for lists and dicts the rendering abstracts
CPython's `repr`-based formatting (the claims below never depend on the
exact text of a rendered container, only on it being some fixed text). -/
def pyStr : Json → String
  | .null => "None"
  | .bool true => "True"
  | .bool false => "False"
  | .num q => toString q
  | .str s => s
  | .arr l => "[" ++ String.intercalate ", " (pyReprList l) ++ "]"
  | .obj l => "\x7b" ++ String.intercalate ", " (pyReprKV l) ++ "\x7d"

/-- Python's `repr()` (as used when rendering containers): like `pyStr`
but with strings quoted. -/
def pyRepr : Json → String
  | .str s => "\x27" ++ s ++ "\x27"
  | .null => "None"
  | .bool true => "True"
  | .bool false => "False"
  | .num q => toString q
  | .arr l => "[" ++ String.intercalate ", " (pyReprList l) ++ "]"
  | .obj l => "\x7b" ++ String.intercalate ", " (pyReprKV l) ++ "\x7d"
termination_by structural j => j

/-- `repr` of every element of a list. -/
def pyReprList : List Json → List String
  | [] => []
  | x :: xs => pyRepr x :: pyReprList xs
termination_by structural l => l

/-- `repr(key): repr(value)` of every binding of a dict (dict keys are
strings, rendered quoted). -/
def pyReprKV : List (String × Json) → List String
  | [] => []
  | (k, v) :: xs => ("\x27" ++ k ++ "\x27" ++ ": " ++ pyRepr v) :: pyReprKV xs
termination_by structural l => l

end

/-- Python iteration over a value (`for x in v`): lists yield their
elements, strings their one-character substrings, dicts their keys;
`None`, booleans and numbers are not iterable and raise `TypeError`. -/
def pyIter : Json → Except String (List Json)
  | .arr l => .ok l
  | .str s => .ok (s.toList.map (fun c => Json.str (String.mk [c])))
  | .obj l => .ok (l.map (fun kv => Json.str kv.1))
  | _ => .error "TypeError: object is not iterable"

/-! ## `engines/base.py` — the `Base` engine contract

Only the state touched by the claims is embedded: the API-key pool and the
error-signature configuration.  `api_keys` is the remaining key queue,
`api_key` the active key, `bad_api_keys` the list of keys already marked
bad (a Python list of values that may include `None`, since
`swap_api_key` appends `self.api_key` unconditionally). -/

structure Base where
  need_api_key : Bool
  api_keys : List String
  bad_api_keys : List (Option String)
  api_key : Option String
  api_key_errors : List String
deriving DecidableEq, Repr

namespace Base

/-- `Base.get_api_key` (base.py lines 104–107): pop the front of the key
queue when a key is required and available, else `None`.  Returns the
popped key together with the remaining queue (the Python method mutates
`self.api_keys` in place). -/
def get_api_key (s : Base) : Option String × List String :=
  match s.need_api_key, s.api_keys with
  | true, k :: rest => (some k, rest)
  | true, [] => (none, [])
  | false, _ => (none, s.api_keys)

/-- `Base.swap_api_key` (base.py lines 109–116): if the active key is not
already marked bad, mark it bad and pop the next key as active; return
whether a new active key was obtained, together with the updated state. -/
def swap_api_key (s : Base) : Bool × Base :=
  if s.api_key ∈ s.bad_api_keys then (false, s)
  else
    let kq := get_api_key s
    (kq.1.isSome,
     { s with
        bad_api_keys := s.bad_api_keys ++ [s.api_key]
        api_key := kq.1
        api_keys := kq.2 })

/-- `Base.match_error` (base.py lines 124–128): some configured
error-signature string occurs as a substring of the error message. -/
def match_error (s : Base) (error_message : String) : Bool :=
  s.api_key_errors.any (fun e => strContains error_message e)

/-- `Base.need_swap_api_key` (base.py lines 118–122). -/
def need_swap_api_key (s : Base) (error_message : String) : Bool :=
  s.need_api_key && decide (s.api_keys.length > 0) && match_error s error_message

/-- The key-related part of `Base.__init__` (base.py lines 51–53): copy the
configured keys into the queue, start with an empty bad set, and pop the
first key as active. -/
def init (need : Bool) (configuredKeys : List String) (errs : List String) : Base :=
  let s0 : Base :=
    { need_api_key := need, api_keys := configuredKeys, bad_api_keys := []
      api_key := none, api_key_errors := errs }
  let kq := get_api_key s0
  { s0 with api_key := kq.1, api_keys := kq.2 }

/-- State after `n` successive `swap_api_key()` calls. -/
def swapN (s : Base) : Nat → Base
  | 0 => s
  | n + 1 => (swap_api_key (swapN s n)).2

end Base

/-! ## `Base.translate` — retry orchestration (base.py lines 180–218)

One attempt (the `request` call plus the engine's `get_result`) is
abstracted as an oracle from the current engine state to an outcome:
either a successful result, or a failure carrying the error text that the
handler matches against (`str(e)` on the network path, the accumulated
`error_message` diagnostics otherwise) together with a flag saying which
of the two failure classifications applied (`isNetwork` is true exactly
when the exception was a `URLError`/timeout with no response received).
Both failure branches of the Python handler perform the same
`if self.need_swap_api_key(...) and self.swap_api_key(): return
self.translate(text)` step and otherwise raise; they differ only in the
message of the raised `UnexpectedResult`. -/

/-- Outcome of one request/parse attempt. -/
inductive AttemptOutcome where
  | ok (result : String)
  | err (isNetwork : Bool) (msg : String)

/-- Message of the `UnexpectedResult` raised on the network branch
(base.py line 205). -/
def networkFailMsg (m : String) : String :=
  "Request to translation service failed (timeout or connectivity issue). Details: " ++ m

/-- Message of the `UnexpectedResult` raised on the general branch
(base.py lines 216–218). -/
def parseFailMsg (m : String) : String :=
  "Can not parse returned response. Raw data: " ++ ("\n\n" ++ m)

/-- The error message `Base.translate` raises when key rotation does not
apply. -/
def failMsg (isNetwork : Bool) (m : String) : String :=
  if isNetwork then networkFailMsg m else parseFailMsg m

/-- A successful `swap_api_key` pops one key off the queue. -/
theorem Base.swap_true_length_lt (s : Base) (h : (Base.swap_api_key s).1 = true) :
    (Base.swap_api_key s).2.api_keys.length < s.api_keys.length := by
  unfold Base.swap_api_key at *
  by_cases hbad : s.api_key ∈ s.bad_api_keys
  · simp [hbad] at h
  · simp only [hbad, if_neg, if_false] at h ⊢
    unfold Base.get_api_key at h ⊢
    cases hneed : s.need_api_key <;> cases hkeys : s.api_keys <;>
      simp [hneed, hkeys] at h ⊢

/-- A successful `swap_api_key` appends exactly one entry to the bad set. -/
theorem Base.swap_true_bad (s : Base) (h : (Base.swap_api_key s).1 = true) :
    (Base.swap_api_key s).2.bad_api_keys = s.bad_api_keys ++ [s.api_key] := by
  unfold Base.swap_api_key at *
  by_cases hbad : s.api_key ∈ s.bad_api_keys
  · simp [hbad] at h
  · simp [hbad]

/-- `need_swap_api_key` forces a required key, a non-empty queue, and a
matched error signature. -/
theorem Base.need_swap_parts (s : Base) (m : String)
    (h : Base.need_swap_api_key s m = true) :
    s.need_api_key = true ∧ s.api_keys ≠ [] ∧ Base.match_error s m = true := by
  unfold Base.need_swap_api_key at h
  simp only [Bool.and_eq_true, decide_eq_true_eq] at h
  refine ⟨h.1.1, ?_, h.2⟩
  intro hnil
  rw [hnil] at h
  simp at h

/-- `need_swap_api_key` can only hold when the key queue is non-empty. -/
theorem Base.need_swap_nonempty (s : Base) (m : String)
    (h : Base.need_swap_api_key s m = true) : s.api_keys ≠ [] :=
  (Base.need_swap_parts s m h).2.1

/-- `Base.translate` (base.py lines 180–218), with the per-attempt
request/parse step abstracted by `oracle`.  Returns the final outcome
(result or raised error message), the number of recursive re-invocations
(equivalently, of successful `swap_api_key` calls), and the final engine
state.  The recursion mirrors the Python code: a failed attempt recurses
exactly when `need_swap_api_key` holds for its error text and
`swap_api_key()` returns `True`. -/
def translate (oracle : Base → AttemptOutcome) (s : Base) :
    Except String String × Nat × Base :=
  match oracle s with
  | .ok r => (.ok r, 0, s)
  | .err isNetwork m =>
    if Base.need_swap_api_key s m = true then
      if h : (Base.swap_api_key s).1 = true then
        let p := translate oracle (Base.swap_api_key s).2
        (p.1, p.2.1 + 1, p.2.2)
      else
        (.error (failMsg isNetwork m), 0, (Base.swap_api_key s).2)
    else
      (.error (failMsg isNetwork m), 0, s)
termination_by s.api_keys.length
decreasing_by exact Base.swap_true_length_lt s h

/-- Defining equation of `translate`, for use in proofs. -/
theorem translate_unfold (oracle : Base → AttemptOutcome) (s : Base) :
    translate oracle s =
      match oracle s with
      | .ok r => (.ok r, 0, s)
      | .err isNetwork m =>
        if Base.need_swap_api_key s m = true then
          if (Base.swap_api_key s).1 = true then
            let p := translate oracle (Base.swap_api_key s).2
            (p.1, p.2.1 + 1, p.2.2)
          else
            (.error (failMsg isNetwork m), 0, (Base.swap_api_key s).2)
        else
          (.error (failMsg isNetwork m), 0, s) := by
  rw [translate]
  rfl

/-- Core bound: the number of recursive re-invocations of `translate` is at
most the length of the key queue, and each one marks exactly one key bad. -/
theorem translate_bound_aux (oracle : Base → AttemptOutcome) :
    ∀ n (s : Base), s.api_keys.length ≤ n →
      (translate oracle s).2.1 ≤ s.api_keys.length ∧
      (translate oracle s).2.2.bad_api_keys.length
        = s.bad_api_keys.length + (translate oracle s).2.1 := by
  intro n
  induction n with
  | zero =>
    intro s hs
    have hnil : s.api_keys = [] := List.length_eq_zero.mp (Nat.le_zero.mp hs)
    rw [translate_unfold]
    cases horacle : oracle s with
    | ok r => simp
    | err isNetwork m =>
      dsimp only
      have hns : Base.need_swap_api_key s m = false := by
        cases h : Base.need_swap_api_key s m
        · rfl
        · exact absurd hnil (Base.need_swap_nonempty s m h)
      rw [if_neg (by simp [hns])]
      simp
  | succ n ih =>
    intro s hs
    rw [translate_unfold]
    cases horacle : oracle s with
    | ok r => simp
    | err isNetwork m =>
      dsimp only
      by_cases hns : Base.need_swap_api_key s m = true
      · rw [if_pos hns]
        by_cases hswap : (Base.swap_api_key s).1 = true
        · rw [if_pos hswap]
          have hlt := Base.swap_true_length_lt s hswap
          have hbad := Base.swap_true_bad s hswap
          have ihs := ih (Base.swap_api_key s).2 (by omega)
          have h1 := ihs.1
          have h2 := ihs.2
          constructor
          · show (translate oracle (Base.swap_api_key s).2).2.1 + 1
              ≤ s.api_keys.length
            omega
          · show (translate oracle (Base.swap_api_key s).2).2.2.bad_api_keys.length
              = s.bad_api_keys.length
                + ((translate oracle (Base.swap_api_key s).2).2.1 + 1)
            rw [hbad] at h2
            simp only [List.length_append, List.length_cons,
              List.length_nil] at h2
            omega
        · rw [if_neg hswap]
          have hstate : (Base.swap_api_key s).2 = s := by
            obtain ⟨hneed, hne, _⟩ := Base.need_swap_parts s m hns
            by_cases hmem : s.api_key ∈ s.bad_api_keys
            · simp [Base.swap_api_key, hmem]
            · exfalso
              apply hswap
              obtain ⟨k, rest, hk⟩ := List.exists_cons_of_ne_nil hne
              unfold Base.swap_api_key Base.get_api_key
              simp [hmem, hneed, hk]
          rw [hstate]
          simp
      · rw [if_neg hns]
        simp

/-- C1.  For any per-attempt oracle and any engine state, a `translate`
call chain performs at most queue-length many recursive re-invocations,
each recursion marks exactly one key bad (so an engine configured with `n`
keys marks at most `n` keys bad), and once the key queue is empty a
failing attempt is surfaced as an error with zero further recursion. -/
theorem translate_key_rotation_bound (oracle : Base → AttemptOutcome) (s : Base) :
    (translate oracle s).2.1 ≤ s.api_keys.length ∧
    (translate oracle s).2.2.bad_api_keys.length
      = s.bad_api_keys.length + (translate oracle s).2.1 ∧
    (∀ need keys errs,
      (translate oracle (Base.init need keys errs)).2.1 ≤ keys.length) ∧
    (∀ isNetwork m, s.api_keys = [] → oracle s = .err isNetwork m →
      translate oracle s = (.error (failMsg isNetwork m), 0, s)) := by
  obtain ⟨h1, h2⟩ := translate_bound_aux oracle s.api_keys.length s le_rfl
  refine ⟨h1, h2, ?_, ?_⟩
  · intro need keys errs
    have hlen : (Base.init need keys errs).api_keys.length ≤ keys.length := by
      unfold Base.init Base.get_api_key
      cases need <;> cases keys <;> simp
    have := (translate_bound_aux oracle
      (Base.init need keys errs).api_keys.length (Base.init need keys errs)
      le_rfl).1
    omega
  · intro isNetwork m hnil horacle
    rw [translate_unfold, horacle]
    have hns : Base.need_swap_api_key s m = false := by
      cases h : Base.need_swap_api_key s m
      · rfl
      · exact absurd hnil (Base.need_swap_nonempty s m h)
    simp [hns]

/-- Witness for C1: with no remaining keys, a failing attempt is raised to
the caller with zero recursions. -/
theorem translate_key_rotation_bound_witness :
    translate (fun _ => AttemptOutcome.err false "HTTP 401")
        (Base.init true [] ["401"])
      = (.error (failMsg false "HTTP 401"), 0, Base.init true [] ["401"]) :=
  (translate_key_rotation_bound (fun _ => AttemptOutcome.err false "HTTP 401")
    (Base.init true [] ["401"])).2.2.2 false "HTTP 401" rfl rfl

/-! ## C2 — `swap_api_key` single-step behaviour and session invariant -/

/-- The key-pool invariant maintained by every `swap_api_key` call: the
queue has no duplicates, no queued key is marked bad, the active key is
not in the queue, and the active key is not marked bad. -/
def KeyInv (s : Base) : Prop :=
  s.api_keys.Nodup ∧
  (∀ k ∈ s.api_keys, (some k) ∉ s.bad_api_keys) ∧
  (∀ k, s.api_key = some k → k ∉ s.api_keys) ∧
  (∀ k, s.api_key = some k → (some k) ∉ s.bad_api_keys)

/-- A freshly constructed engine with pairwise-distinct configured keys
satisfies the key-pool invariant. -/
theorem keyInv_init (need : Bool) (keys errs : List String)
    (hnd : keys.Nodup) : KeyInv (Base.init need keys errs) := by
  unfold Base.init Base.get_api_key KeyInv
  cases need with
  | false => simpa using hnd
  | true =>
    cases keys with
    | nil => simp
    | cons k rest =>
      simp only [List.nodup_cons] at hnd
      refine ⟨hnd.2, by simp, ?_, by simp⟩
      intro k2 hk2
      simp only [Option.some.injEq] at hk2
      subst hk2
      simpa using hnd.1

/-- `swap_api_key` preserves the key-pool invariant. -/
theorem keyInv_swap (s : Base) (h : KeyInv s) :
    KeyInv (Base.swap_api_key s).2 := by
  obtain ⟨hnd, hqb, hak, hab⟩ := h
  unfold Base.swap_api_key
  by_cases hmem : s.api_key ∈ s.bad_api_keys
  · simpa [hmem] using ⟨hnd, hqb, hak, hab⟩
  · simp only [hmem, if_false]
    unfold Base.get_api_key
    cases hneed : s.need_api_key with
    | false =>
      refine ⟨hnd, ?_, by simp, by simp⟩
      intro k hk
      simp only [List.mem_append, List.mem_singleton]
      push_neg
      refine ⟨hqb k hk, ?_⟩
      intro hkey
      exact hak k hkey.symm hk
    | true =>
      cases hkeys : s.api_keys with
      | nil => exact ⟨List.nodup_nil, by simp, by simp, by simp⟩
      | cons k rest =>
        rw [hkeys] at hnd hqb hak
        simp only [List.nodup_cons] at hnd
        refine ⟨hnd.2, ?_, ?_, ?_⟩
        · intro x hx
          simp only [List.mem_append, List.mem_singleton]
          push_neg
          refine ⟨hqb x (by simp [hx]), ?_⟩
          intro hkey
          exact hak x hkey.symm (by simp [hx])
        · intro x hx
          simp only [Option.some.injEq] at hx
          subst hx
          exact hnd.1
        · intro x hx
          simp only [Option.some.injEq] at hx
          subst hx
          simp only [List.mem_append, List.mem_singleton]
          push_neg
          refine ⟨hqb k (by simp), ?_⟩
          intro hkey
          exact hak k hkey.symm (by simp)

/-- The invariant holds after any number of swaps from a
distinct-key initial state. -/
theorem keyInv_swapN (need : Bool) (keys errs : List String)
    (hnd : keys.Nodup) (n : Nat) :
    KeyInv (Base.swapN (Base.init need keys errs) n) := by
  induction n with
  | zero => exact keyInv_init need keys errs hnd
  | succ n ih => exact keyInv_swap _ ih

/-- C2 (amended).  A `swap_api_key()` call on an engine whose active key is
not yet marked bad appends that key to the bad set, pops the front of the
queue as the new active key (`none` when no key is required or the queue
is empty), and returns `True` exactly when a new key was obtained; the bad
set never shrinks; and — provided the configured keys are pairwise
distinct — after any number of `swap_api_key()` calls in a session the
active key is never one already in the bad set. -/
theorem swap_api_key_spec (s : Base) :
    (s.api_key ∉ s.bad_api_keys →
      ((Base.swap_api_key s).2.bad_api_keys = s.bad_api_keys ++ [s.api_key] ∧
       (∀ k rest, s.need_api_key = true → s.api_keys = k :: rest →
          (Base.swap_api_key s).2.api_key = some k ∧
          (Base.swap_api_key s).2.api_keys = rest ∧
          (Base.swap_api_key s).1 = true) ∧
       ((s.need_api_key = false ∨ s.api_keys = []) →
          (Base.swap_api_key s).2.api_key = none ∧
          (Base.swap_api_key s).1 = false))) ∧
    ((Base.swap_api_key s).1 = true ↔
      (s.api_key ∉ s.bad_api_keys ∧ ((Base.get_api_key s).1).isSome = true)) ∧
    (s.bad_api_keys <+: (Base.swap_api_key s).2.bad_api_keys) ∧
    (∀ need keys errs, keys.Nodup → ∀ n k,
      (Base.swapN (Base.init need keys errs) n).api_key = some k →
      (some k) ∉ (Base.swapN (Base.init need keys errs) n).bad_api_keys) := by
  refine ⟨?_, ?_, ?_, ?_⟩
  · intro hmem
    unfold Base.swap_api_key
    simp only [hmem, if_false]
    refine ⟨by trivial, ?_, ?_⟩
    · intro k rest hneed hkeys
      unfold Base.get_api_key
      simp [hneed, hkeys]
    · intro hcase
      unfold Base.get_api_key
      rcases hcase with hneed | hkeys
      · simp [hneed]
      · cases hneed : s.need_api_key <;> simp [hneed, hkeys]
  · unfold Base.swap_api_key
    by_cases hmem : s.api_key ∈ s.bad_api_keys <;> simp [hmem]
  · unfold Base.swap_api_key
    by_cases hmem : s.api_key ∈ s.bad_api_keys
    · simp [hmem]
    · simp only [hmem, if_false]
      exact ⟨[s.api_key], rfl⟩
  · intro need keys errs hnd n k hk
    exact (keyInv_swapN need keys errs hnd n).2.2.2 k hk

/-- Witness for C2: one concrete swap on a two-distinct-key engine marks
the first key bad, activates the second, returns `True`, and the invariant
holds along the way. -/
theorem swap_api_key_spec_witness :
    (Base.swap_api_key (Base.init true ["K1", "K2"] ["401"])).2.bad_api_keys
        = [some "K1"] ∧
    (Base.swap_api_key (Base.init true ["K1", "K2"] ["401"])).2.api_key
        = some "K2" ∧
    (Base.swap_api_key (Base.init true ["K1", "K2"] ["401"])).1 = true ∧
    (some "K2") ∉ (Base.swapN (Base.init true ["K1", "K2"] ["401"]) 1).bad_api_keys := by
  have h := swap_api_key_spec (Base.init true ["K1", "K2"] ["401"])
  have h1 := h.1 (by decide)
  have h2 := h1.2.1 "K2" [] rfl rfl
  refine ⟨by simpa using h1.1, h2.1, h2.2.2, ?_⟩
  refine h.2.2.2 true ["K1", "K2"] ["401"] (by decide) 1 "K2" ?_
  exact h2.1

/-- Counterexample to C2 as stated: with duplicate configured keys
`["K", "K"]`, after one `swap_api_key()` the active key is `"K"` even
though `"K"` is already in the bad set — a key that entered the bad set
has become the active key again. -/
theorem swap_api_key_dup_counterexample :
    (Base.swapN (Base.init true ["K", "K"] ["401"]) 1).api_key = some "K" ∧
    (some "K") ∈ (Base.swapN (Base.init true ["K", "K"] ["401"]) 1).bad_api_keys := by
  decide

/-! ## `engines/openai.py` — `ChatgptTranslate` (classic chat engine) -/

/-- `REASONING_MODEL_PREFIXES` (openai.py line 54). -/
def REASONING_MODEL_PREFIXES : List String := ["o1", "o3", "o4"]

/-- `_is_reasoning_model` (openai.py lines 56–58):
`bool(model_id and model_id.startswith(REASONING_MODEL_PREFIXES))`. -/
def is_reasoning_model : Option String → Bool
  | none => false
  | some m =>
    decide (m ≠ "") && REASONING_MODEL_PREFIXES.any (fun p => strStartsWith m p)

/-- `ChatgptTranslate.CHAT_ENDPOINT` (openai.py line 78). -/
def CHAT_ENDPOINT : String := "https://api.openai.com/v1/chat/completions"

/-- `ChatgptTranslate.RESPONSES_ENDPOINT` (openai.py line 79). -/
def RESPONSES_ENDPOINT : String := "https://api.openai.com/v1/responses"

/-- The class-level default prompt template of `ChatgptTranslate`
(openai.py lines 86–95). -/
def chatgptDefaultPrompt : String :=
  "You are a meticulous translator who translates any given content. " ++
  "Translate the given content from <slang> to <tlang> only. Do not " ++
  "explain any term or answer any question-like content. Your answer " ++
  "should be solely the translation of the given content. In your " ++
  "answer do not add any prefix or suffix to the translated content. " ++
  "Websites\x27 URLs/addresses should be preserved as is in the " ++
  "translation\x27s output. Do not omit any part of the content, even if " ++
  "it seems unimportant. "

/-- The suffix appended to the prompt when merge mode is enabled
(openai.py lines 168–169). -/
def mergePromptSuffix : String :=
  " Ensure that placeholders matching the pattern \x7b\x7bid_\\d+\x7d\x7d in the content are retained."

/-- The engine-specific part of the user configuration mapping read by
`ChatgptTranslate.__init__` / `_select_endpoint`.  A field is `some v`
exactly when the corresponding key is present in the configuration
(`"endpoint" in self.config` is modelled by `endpoint.isSome`). -/
structure ChatgptConfig where
  endpoint : Option String := none
  prompt : Option String := none
  sampling : Option String := none
  temperature : Option Rat := none
  top_p : Option Rat := none
  stream : Option Bool := none
  model : Option String := none

/-- The state of a constructed `ChatgptTranslate` instance (the fields the
claims touch).  `base` is the inherited `Base` key state;
`autoDetectLabel` is the localized "Auto detect" label and `source_codes`
the source language-code table, both supplied by collaborators outside
`engines/` (the `languages` module and the i18n loader). -/
structure ChatgptState where
  base : Base
  model : Option String
  sampling : String
  temperature : Rat
  top_p : Rat
  stream : Bool
  is_reasoning : Bool
  endpoint : String
  prompt : String
  autoDetectLabel : String
  source_codes : List (String × String)
  source_lang : String
  target_lang : String
  merge_enabled : Bool

/-- `ChatgptTranslate.__init__` together with `_select_endpoint`
(openai.py lines 114–145): read overrides from the configuration, classify
the model, select the endpoint (an explicitly configured endpoint always
wins), and force streaming off for reasoning models.  `source_lang` /
`target_lang` start empty and are set by the `set_source_lang` /
`set_target_lang` setters before any request is built (in Python they
start as `None`). -/
def mkChatgpt (cfg : ChatgptConfig) (keys errs : List String)
    (autoLabel : String) (sourceCodes : List (String × String)) : ChatgptState :=
  let model : Option String :=
    match cfg.model with
    | some m => some m
    | none => some "gpt-4o"
  let stream0 := cfg.stream.getD true
  let isr := is_reasoning_model model
  let endpoint :=
    match cfg.endpoint with
    | some e => e
    | none => if isr then RESPONSES_ENDPOINT else CHAT_ENDPOINT
  { base := Base.init true keys errs
    model := model
    sampling := cfg.sampling.getD "temperature"
    temperature := cfg.temperature.getD 1
    top_p := cfg.top_p.getD 1
    stream := if isr then false else stream0
    is_reasoning := isr
    endpoint := endpoint
    prompt := cfg.prompt.getD chatgptDefaultPrompt
    autoDetectLabel := autoLabel
    source_codes := sourceCodes
    source_lang := ""
    target_lang := ""
    merge_enabled := false }

namespace ChatgptState

/-- `Base.get_source_code` (base.py lines 81–84): the sentinel `"auto"`
for the localized "Auto detect" label, else a table lookup. -/
def get_source_code (s : ChatgptState) (lang : String) : Option String :=
  if lang = s.autoDetectLabel then some "auto"
  else (s.source_codes.find? (fun kv => kv.1 == lang)).map (fun kv => kv.2)

/-- `Base._is_auto_lang` (base.py lines 177–178). -/
def is_auto_lang (s : ChatgptState) : Bool :=
  s.get_source_code s.source_lang == some "auto"

/-- `ChatgptTranslate.get_prompt` (openai.py lines 163–170). -/
def get_prompt (s : ChatgptState) : String :=
  let p := s.prompt.replace "<tlang>" s.target_lang
  let p := p.replace "<slang>"
    (if s.is_auto_lang then "detected language" else s.source_lang)
  if s.merge_enabled then p ++ mergePromptSuffix else p

/-- `getattr(self, self.sampling)` (openai.py line 185), for `sampling`
drawn from the declared `samplings = ["temperature", "top_p"]` list. -/
def samplingValue (s : ChatgptState) : Rat :=
  if s.sampling = "temperature" then s.temperature else s.top_p

end ChatgptState

/-- A Python value that may be `None`, JSON-encoded. -/
def optStr : Option String → Json
  | some s => .str s
  | none => .null

/-- Key lookup on a JSON object (`none` on any other JSON value). -/
def Json.getKV : Json → String → Option Json
  | .obj o, k => jGet o k
  | _, _ => none

/-- `ChatgptTranslate.get_body` (openai.py lines 183–208), at the level of
the JSON value that `json.dumps` then serialises. -/
def ChatgptState.get_body (s : ChatgptState) (text : String) : Json :=
  if s.is_reasoning then
    Json.obj [("model", optStr s.model),
              ("instructions", .str s.get_prompt),
              ("input", .str text),
              (s.sampling, .num s.samplingValue)]
  else
    Json.obj [("model", optStr s.model),
              ("messages", .arr
                [Json.obj [("role", .str "system"),
                           ("content", .str s.get_prompt)],
                 Json.obj [("role", .str "user"),
                           ("content", .str text)]]),
              ("stream", .bool s.stream),
              (s.sampling, .num s.samplingValue)]

/-- The sampling key that was not selected. -/
def otherSampling (s : ChatgptState) : String :=
  if s.sampling = "temperature" then "top_p" else "temperature"

/-- C3.  `get_body` is bimodal on the reasoning classification: the
non-reasoning body carries `model`, a two-element `messages` list (system
prompt, user text), `stream`, the selected sampling key and no `input`;
the reasoning body carries `model`, `instructions`, `input`, the selected
sampling key, and neither `messages` nor `stream`; in both modes the
unselected sampling key is absent. -/
theorem chatgpt_get_body_bimodal (s : ChatgptState) (text : String)
    (hsamp : s.sampling = "temperature" ∨ s.sampling = "top_p") :
    (s.is_reasoning = false →
      (s.get_body text).getKV "model" = some (optStr s.model) ∧
      (s.get_body text).getKV "messages" = some (.arr
        [Json.obj [("role", .str "system"), ("content", .str s.get_prompt)],
         Json.obj [("role", .str "user"), ("content", .str text)]]) ∧
      (s.get_body text).getKV "stream" = some (.bool s.stream) ∧
      (s.get_body text).getKV s.sampling = some (.num s.samplingValue) ∧
      (s.get_body text).getKV "input" = none ∧
      (s.get_body text).getKV (otherSampling s) = none) ∧
    (s.is_reasoning = true →
      (s.get_body text).getKV "model" = some (optStr s.model) ∧
      (s.get_body text).getKV "instructions" = some (.str s.get_prompt) ∧
      (s.get_body text).getKV "input" = some (.str text) ∧
      (s.get_body text).getKV s.sampling = some (.num s.samplingValue) ∧
      (s.get_body text).getKV "messages" = none ∧
      (s.get_body text).getKV "stream" = none ∧
      (s.get_body text).getKV (otherSampling s) = none) := by
  rcases hsamp with hs | hs <;>
    constructor <;> intro hmode <;>
      simp [ChatgptState.get_body, Json.getKV, jGet, otherSampling,
        hmode, hs, List.find?]

/-- Witness for C3 at a concrete non-reasoning state. -/
theorem chatgpt_get_body_bimodal_witness :
    ((mkChatgpt {} ["K"] ["401"] "Auto detect" []).get_body "hello").getKV
        "messages" = some (.arr
          [Json.obj [("role", .str "system"),
            ("content", .str (mkChatgpt {} ["K"] ["401"] "Auto detect" []).get_prompt)],
           Json.obj [("role", .str "user"), ("content", .str "hello")]]) ∧
    ((mkChatgpt {} ["K"] ["401"] "Auto detect" []).get_body "hello").getKV
        "input" = none := by
  have h := (chatgpt_get_body_bimodal (mkChatgpt {} ["K"] ["401"] "Auto detect" [])
    "hello" (Or.inl rfl)).1 rfl
  exact ⟨h.2.1, h.2.2.2.2.1⟩

/-- C4.  At construction: the model is classified reasoning exactly when
it starts with one of the fixed family prefixes; an explicitly configured
endpoint always wins; otherwise the endpoint is the responses endpoint
for reasoning models and the chat-completions endpoint for non-reasoning
models; and reasoning classification forces the stream flag off. -/
theorem chatgpt_init_endpoint_stream (cfg : ChatgptConfig) (keys errs : List String)
    (autoLabel : String) (sourceCodes : List (String × String)) :
    ((mkChatgpt cfg keys errs autoLabel sourceCodes).is_reasoning = true ↔
      (∃ p ∈ REASONING_MODEL_PREFIXES,
        strStartsWith (cfg.model.getD "gpt-4o") p = true)) ∧
    (∀ e, cfg.endpoint = some e →
      (mkChatgpt cfg keys errs autoLabel sourceCodes).endpoint = e) ∧
    (cfg.endpoint = none →
      (mkChatgpt cfg keys errs autoLabel sourceCodes).endpoint =
        (if (mkChatgpt cfg keys errs autoLabel sourceCodes).is_reasoning
         then RESPONSES_ENDPOINT else CHAT_ENDPOINT)) ∧
    ((mkChatgpt cfg keys errs autoLabel sourceCodes).is_reasoning = true →
      (mkChatgpt cfg keys errs autoLabel sourceCodes).stream = false) := by
  refine ⟨?_, ?_, ?_, ?_⟩
  · unfold mkChatgpt is_reasoning_model
    cases hm : cfg.model with
    | none =>
      simp only [Option.getD]
      constructor
      · intro h
        simp only [Bool.and_eq_true, List.any_eq_true, decide_eq_true_eq] at h
        obtain ⟨p, hp, hsw⟩ := h.2
        exact ⟨p, hp, hsw⟩
      · intro ⟨p, hp, hsw⟩
        simp only [Bool.and_eq_true, List.any_eq_true, decide_eq_true_eq]
        exact ⟨by decide, ⟨p, hp, hsw⟩⟩
    | some m =>
      simp only [Option.getD]
      constructor
      · intro h
        simp only [Bool.and_eq_true, List.any_eq_true, decide_eq_true_eq] at h
        obtain ⟨p, hp, hsw⟩ := h.2
        exact ⟨p, hp, hsw⟩
      · intro ⟨p, hp, hsw⟩
        simp only [Bool.and_eq_true, List.any_eq_true, decide_eq_true_eq]
        refine ⟨?_, ⟨p, hp, hsw⟩⟩
        intro hm0
        subst hm0
        revert hsw
        fin_cases hp <;> decide
  · intro e he
    unfold mkChatgpt
    simp [he]
  · intro he
    unfold mkChatgpt
    simp [he]
  · intro h
    unfold mkChatgpt at h ⊢
    simp only at h ⊢
    rw [h]
    simp

/-- Witness for C4: with model `"o3-mini"` configured, the engine is
classified reasoning, picks the responses endpoint, and has streaming
forced off. -/
theorem chatgpt_init_endpoint_stream_witness :
    (mkChatgpt { model := some "o3-mini" } ["K"] ["401"] "Auto detect" []).is_reasoning
        = true ∧
    (mkChatgpt { model := some "o3-mini" } ["K"] ["401"] "Auto detect" []).endpoint
        = RESPONSES_ENDPOINT ∧
    (mkChatgpt { model := some "o3-mini" } ["K"] ["401"] "Auto detect" []).stream
        = false := by
  have h := chatgpt_init_endpoint_stream { model := some "o3-mini" }
    ["K"] ["401"] "Auto detect" []
  have hr : (mkChatgpt { model := some "o3-mini" } ["K"] ["401"] "Auto detect"
      []).is_reasoning = true :=
    h.1.mpr ⟨"o3", by decide, by decide⟩
  refine ⟨hr, ?_, h.2.2.2 hr⟩
  have he := h.2.2.1 rfl
  rw [he, hr]
  rfl

/-! ## C8 — `need_swap_api_key` is a plain substring match -/

/-- C8.  `need_swap_api_key(error_text)` returns `True` iff the engine
requires an API key, the remaining key queue is non-empty, and some
configured error-signature string occurs as a plain substring of the raw
error text. -/
theorem need_swap_api_key_iff (s : Base) (msg : String) :
    Base.need_swap_api_key s msg = true ↔
      (s.need_api_key = true ∧ s.api_keys ≠ [] ∧
       ∃ e ∈ s.api_key_errors, e.toList <:+: msg.toList) := by
  unfold Base.need_swap_api_key Base.match_error
  simp only [Bool.and_eq_true, decide_eq_true_eq, List.any_eq_true]
  constructor
  · rintro ⟨⟨h1, h2⟩, e, he, hc⟩
    refine ⟨h1, ?_, e, he, (strContains_iff _ _).mp hc⟩
    intro hnil
    rw [hnil] at h2
    simp at h2
  · rintro ⟨h1, h2, e, he, hc⟩
    refine ⟨⟨h1, ?_⟩, e, he, (strContains_iff _ _).mpr hc⟩
    cases hk : s.api_keys with
    | nil => exact absurd hk h2
    | cons a t => simp [hk]

/-- Witness for C8: a `"401"` signature matches inside a larger error text
by substring containment. -/
theorem need_swap_api_key_iff_witness :
    Base.need_swap_api_key
      { need_api_key := true, api_keys := ["K2"], bad_api_keys := []
        api_key := some "K1", api_key_errors := ["401"] }
      "HTTP Error 401: Unauthorized" = true :=
  (need_swap_api_key_iff _ _).mpr
    ⟨rfl, by decide, "401", by decide, (strContains_iff _ _).mp (by decide)⟩

/-! ## C9 — `ChatgptBatchTranslate.__init__` (openai.py lines 264–284) -/

/-- The message of the `UnsupportedModel` raised when wrapping a
reasoning-classified engine (openai.py lines 276–280). -/
def batchUnsupportedMsg : String :=
  "Reasoning models are currently incompatible with the " ++
  "ChatgptBatchTranslate helper. Please perform regular calls " ++
  "via ChatgptTranslate instead."

/-- Outcome of constructing a `ChatgptBatchTranslate`: either the wrapper
holding the (mutated) wrapped engine, or the fatal `UnsupportedModel`. -/
inductive BatchInitResult where
  | ok (translator : ChatgptState)
  | unsupportedModel (msg : String)

/-- `ChatgptBatchTranslate.__init__` (openai.py lines 269–284): force
streaming off on the wrapped engine, then refuse a reasoning-classified
engine outright.  The derived `file_endpoint`/`batch_endpoint` fields
(scheme+host of the wrapped endpoint joined with fixed paths) are not
claim-relevant and are omitted from the state. -/
def mkChatgptBatch (t : ChatgptState) : BatchInitResult :=
  let t1 := { t with stream := false }
  if t1.is_reasoning then .unsupportedModel batchUnsupportedMsg
  else .ok t1

/-- C9.  The batch wrapper raises a fatal `UnsupportedModel` exactly on
reasoning-classified engines; on non-reasoning engines construction
succeeds with the wrapped engine's stream flag forced off; and in no case
is the wrapped engine's key state (active key, queue, bad set) touched —
the error can never trigger key rotation. -/
theorem chatgpt_batch_init_spec (t : ChatgptState) :
    (t.is_reasoning = true →
      mkChatgptBatch t = .unsupportedModel batchUnsupportedMsg) ∧
    (t.is_reasoning = false →
      mkChatgptBatch t = .ok { t with stream := false } ∧
      ∀ t2, mkChatgptBatch t = .ok t2 → t2.stream = false) ∧
    (∀ t2, mkChatgptBatch t = .ok t2 →
      t2.base.bad_api_keys = t.base.bad_api_keys ∧
      t2.base.api_key = t.base.api_key ∧
      t2.base.api_keys = t.base.api_keys) := by
  have hproj : ({ t with stream := false } : ChatgptState).is_reasoning
      = t.is_reasoning := rfl
  refine ⟨?_, ?_, ?_⟩
  · intro hr
    unfold mkChatgptBatch
    rw [if_pos (by rw [hproj, hr])]
  · intro hr
    unfold mkChatgptBatch
    rw [if_neg (by rw [hproj, hr]; simp)]
    refine ⟨rfl, ?_⟩
    intro t2 h
    cases h
    rfl
  · intro t2 h
    unfold mkChatgptBatch at h
    by_cases hr : ({ t with stream := false } : ChatgptState).is_reasoning = true
    · rw [if_pos hr] at h
      cases h
    · rw [if_neg hr] at h
      cases h
      exact ⟨rfl, rfl, rfl⟩

/-- Witness for C9: wrapping an engine configured with model `"o3-mini"`
(reasoning) raises `UnsupportedModel`; wrapping the default `"gpt-4o"`
engine succeeds with streaming off. -/
theorem chatgpt_batch_init_spec_witness :
    mkChatgptBatch (mkChatgpt { model := some "o3-mini" } ["K"] ["401"] "Auto detect" [])
        = .unsupportedModel batchUnsupportedMsg ∧
    mkChatgptBatch (mkChatgpt {} ["K"] ["401"] "Auto detect" [])
        = .ok { mkChatgpt {} ["K"] ["401"] "Auto detect" [] with stream := false } := by
  constructor
  · exact (chatgpt_batch_init_spec _).1 rfl
  · exact ((chatgpt_batch_init_spec _).2.1 rfl).1

/-! ## The SSE stream parsers -/

/-- One scripted read from the response channel: a decoded line, a
transient `IncompleteRead`, or a read/decode failure raising an exception
with the given text. -/
inductive ReadResult where
  | line (s : String)
  | incompleteRead
  | readErr (msg : String)
deriving DecidableEq

/-- How a fragment stream ends. -/
inductive StreamEnd where
  /-- Clean termination (`break` on `[DONE]` or a completed event). -/
  | done
  /-- The scripted input was exhausted without a terminator (the Python
  generator would keep calling `readline()`). -/
  | exhausted
  /-- The wrapped `Exception(_('Can not parse returned response. …'))`
  raised by the `except Exception` handler around the line read. -/
  | errorWrapped (msg : String)
  /-- An exception deliberately raised by the parser body
  (`raise Exception(message)` on a `response.error` event). -/
  | raisedError (msg : String)
  /-- An exception escaping the generator un-handled (`IndexError`,
  `json.JSONDecodeError`, `KeyError`, `AttributeError`, …). -/
  | uncaught (msg : String)
deriving DecidableEq

/-- Message of the wrapped stream-read failure (openai.py lines 247–249 and
openai_new.py lines 143–145). -/
def streamAbortMsg (m : String) : String :=
  "Can not parse returned response. Raw data: " ++ m

/-- Text of the `IndexError` raised by `line.split('data: ', 1)[1]` when
the separator is absent. -/
def indexErrMsg : String := "IndexError: list index out of range"

/-- `json.loads(chunk)["choices"][0]["delta"]` (openai.py line 255). -/
def chatDelta : Json → Except String Json
  | .obj o =>
    match jGet o "choices" with
    | some (.arr (c :: _)) =>
      (match c with
       | .obj co =>
         (match jGet co "delta" with
          | some d => .ok d
          | none => .error "KeyError: delta")
       | _ => .error "TypeError: indices must be strings")
    | some (.arr []) => .error indexErrMsg
    | some _ => .error "TypeError: object is not subscriptable"
    | none => .error "KeyError: choices"
  | _ => .error "TypeError: object is not subscriptable"

/-- `'content' in delta` followed by `delta['content']`
(openai.py lines 256–257): `ok (some v)` when `delta` is a dict binding
`"content"` to `v`; `ok none` when the membership test is false; an error
when the Python `in` / indexing itself raises (non-dict `delta`). -/
def deltaContentField : Json → Except String (Option Json)
  | .obj dO => .ok (jGet dO "content")
  | .str s =>
    if strContains s "content" then .error "TypeError: string indices must be integers"
    else .ok none
  | .arr l =>
    if l.any (fun x => match x with | .str s => s == "content" | _ => false)
    then .error "TypeError: list indices must be integers"
    else .ok none
  | _ => .error "TypeError: argument is not iterable"

/-- `ChatgptTranslate._parse_stream` (openai.py lines 239–257), as a
function from the scripted sequence of reads to the yielded fragments and
the way the generator ends.  `decode` abstracts `json.loads` on a chunk
(`.error` standing for the raised `JSONDecodeError`, which the Python
code does not catch). -/
def chatParseStream (decode : String → Except String Json) :
    List ReadResult → List String × StreamEnd
  | [] => ([], .exhausted)
  | .incompleteRead :: rest => chatParseStream decode rest
  | .readErr m :: _ => ([], .errorWrapped (streamAbortMsg m))
  | .line raw :: rest =>
    let l := pyStrip raw
    if strStartsWith l "data:" then
      match splitRemainder "data: " l with
      | none => ([], .uncaught indexErrMsg)
      | some chunk =>
        if chunk = "[DONE]" then ([], .done)
        else
          match decode chunk with
          | .error e => ([], .uncaught e)
          | .ok j =>
            match chatDelta j with
            | .error e => ([], .uncaught e)
            | .ok delta =>
              match deltaContentField delta with
              | .error e => ([], .uncaught e)
              | .ok none => chatParseStream decode rest
              | .ok (some v) =>
                let p := chatParseStream decode rest
                (pyStr v :: p.1, p.2)
    else chatParseStream decode rest

/-- The fragments one scripted read contributes when the parser neither
terminates nor fails on it (`none` when the read is decisive: a
terminator, a crash, or an abort). -/
def chatContrib (decode : String → Except String Json) :
    ReadResult → Option (List String)
  | .incompleteRead => some []
  | .readErr _ => none
  | .line raw =>
    let l := pyStrip raw
    if strStartsWith l "data:" then
      match splitRemainder "data: " l with
      | none => none
      | some chunk =>
        if chunk = "[DONE]" then none
        else
          match decode chunk with
          | .error _ => none
          | .ok j =>
            match chatDelta j with
            | .error _ => none
            | .ok delta =>
              match deltaContentField delta with
              | .error _ => none
              | .ok none => some []
              | .ok (some v) => some [pyStr v]
    else some []

/-- A non-decisive read prepends its contribution and the parser continues
on the rest of the script. -/
theorem chatParseStream_cons (decode : String → Except String Json)
    (i : ReadResult) (rest : List ReadResult) (ys : List String)
    (h : chatContrib decode i = some ys) :
    chatParseStream decode (i :: rest)
      = (ys ++ (chatParseStream decode rest).1,
         (chatParseStream decode rest).2) := by
  cases i with
  | incompleteRead =>
    simp only [chatContrib, Option.some.injEq] at h
    subst h
    simp [chatParseStream]
  | readErr m => simp [chatContrib] at h
  | line raw =>
    simp only [chatContrib] at h
    simp only [chatParseStream]
    by_cases hsw : strStartsWith (pyStrip raw) "data:" = true
    · rw [if_pos hsw] at h ⊢
      cases hsp : splitRemainder "data: " (pyStrip raw) with
      | none => simp [hsp] at h
      | some chunk =>
        rw [hsp] at h
        try dsimp only at h
        try dsimp only
        by_cases hdone : chunk = "[DONE]"
        · rw [if_pos hdone] at h
          simp at h
        · rw [if_neg hdone] at h ⊢
          cases hdec : decode chunk with
          | error e => simp [hdec] at h
          | ok j =>
            rw [hdec] at h
            try dsimp only at h
            try dsimp only
            cases hdelta : chatDelta j with
            | error e => simp [hdelta] at h
            | ok delta =>
              rw [hdelta] at h
              try dsimp only at h
              try dsimp only
              cases hc : deltaContentField delta with
              | error e => simp [hc] at h
              | ok vo =>
                rw [hc] at h
                try dsimp only at h
                try dsimp only
                cases vo with
                | none =>
                  simp only [Option.some.injEq] at h
                  subst h
                  simp
                | some v =>
                  simp only [Option.some.injEq] at h
                  subst h
                  simp
    · rw [if_neg hsw] at h ⊢
      simp only [Option.some.injEq] at h
      subst h
      simp

/-- Total fragment contribution of a list of non-decisive reads, for a
per-read contribution function. -/
def streamContribs (f : ReadResult → Option (List String)) :
    List ReadResult → List String
  | [] => []
  | i :: rest => (f i).getD [] ++ streamContribs f rest

/-- A benign prefix of the read script contributes its fragments and the
classic-chat parser continues on the remainder. -/
theorem chatParseStream_append (decode : String → Except String Json)
    (pre : List ReadResult)
    (hpre : ∀ i ∈ pre, (chatContrib decode i).isSome = true)
    (tail : List ReadResult) :
    chatParseStream decode (pre ++ tail)
      = (streamContribs (chatContrib decode) pre ++ (chatParseStream decode tail).1,
         (chatParseStream decode tail).2) := by
  induction pre with
  | nil => simp [streamContribs]
  | cons i pre ih =>
    have hi := hpre i (by simp)
    obtain ⟨ys, hys⟩ := Option.isSome_iff_exists.mp hi
    have hpre2 : ∀ j ∈ pre, (chatContrib decode j).isSome = true :=
      fun j hj => hpre j (by simp [hj])
    rw [List.cons_append, chatParseStream_cons decode i _ ys hys, ih hpre2]
    simp [streamContribs, hys]

/-- A stripped line whose `data: `-remainder is `[DONE]` terminates the
classic-chat parser cleanly. -/
theorem chatParseStream_done (decode : String → Except String Json)
    (dl : String) (rest : List ReadResult)
    (hsw : strStartsWith (pyStrip dl) "data:" = true)
    (hsp : splitRemainder "data: " (pyStrip dl) = some "[DONE]") :
    chatParseStream decode (ReadResult.line dl :: rest) = ([], .done) := by
  simp only [chatParseStream]
  rw [if_pos hsw, hsp]
  rfl

/-- C5.  Fed a script of benign reads (non-`data:` lines, transient
incomplete reads, and well-formed `data: ` chunks) followed by
`data: [DONE]`, the classic-chat stream parser yields exactly the
`delta.content` values of the chunks that have a `content` field, in
order, and terminates; an incomplete read contributes nothing (silent
re-read); a non-`data:` line contributes nothing; and a failing read
aborts the stream with the wrapped error embedding the raw exception
text. -/
theorem chatgpt_stream_spec (decode : String → Except String Json)
    (pre : List ReadResult)
    (hpre : ∀ i ∈ pre, (chatContrib decode i).isSome = true) :
    (∀ dl rest, strStartsWith (pyStrip dl) "data:" = true →
      splitRemainder "data: " (pyStrip dl) = some "[DONE]" →
      chatParseStream decode (pre ++ ReadResult.line dl :: rest)
        = (streamContribs (chatContrib decode) pre, .done)) ∧
    (∀ m rest, chatParseStream decode (pre ++ ReadResult.readErr m :: rest)
        = (streamContribs (chatContrib decode) pre,
           .errorWrapped (streamAbortMsg m))) ∧
    (chatContrib decode ReadResult.incompleteRead = some []) ∧
    (∀ l, strStartsWith (pyStrip l) "data:" = false →
      chatContrib decode (ReadResult.line l) = some []) := by
  refine ⟨?_, ?_, rfl, ?_⟩
  · intro dl rest hsw hsp
    rw [chatParseStream_append decode pre hpre,
      chatParseStream_done decode dl rest hsw hsp]
    simp
  · intro m rest
    rw [chatParseStream_append decode pre hpre]
    simp [chatParseStream]
  · intro l hl
    simp only [chatContrib]
    rw [if_neg (by simp [hl])]

/-- Decode oracle for the C5 witness: one well-formed chunk. -/
def chatStreamDecodeW : String → Except String Json := fun c =>
  if c = "CHUNK1" then
    .ok (Json.obj [("choices", .arr [Json.obj [("delta",
      Json.obj [("content", Json.str "Bon")])]])])
  else .error "JSONDecodeError"

/-- Witness for C5: a concrete script with one content chunk, one
incomplete read and one non-`data:` line, ending in `data: [DONE]`,
yields exactly `["Bon"]` and terminates. -/
theorem chatgpt_stream_spec_witness :
    chatParseStream chatStreamDecodeW
        ([ReadResult.line "data: CHUNK1", ReadResult.incompleteRead,
          ReadResult.line "event: x"] ++ [ReadResult.line "data: [DONE]"])
      = (["Bon"], .done) := by
  have h := (chatgpt_stream_spec chatStreamDecodeW
      [ReadResult.line "data: CHUNK1", ReadResult.incompleteRead,
        ReadResult.line "event: x"]
      (by decide)).1 "data: [DONE]" [] (by decide) (by decide)
  rw [h]
  decide

/-! ## `engines/openai_new.py` — `OpenaiNewTranslate._parse_stream` -/

/-- Text of the `AttributeError` raised by `.get` on a non-dict value. -/
def attrErrMsg : String := "AttributeError: object has no attribute get"

/-- `OpenaiNewTranslate._parse_stream` (openai_new.py lines 135–172):
typed SSE events; malformed `data:` payloads are skipped silently;
`response.output_text.delta` / `response.message.delta` events yield their
(truthy) `delta`; completed events and `[DONE]` stop the stream; a
`response.error` event raises `Exception(message)` where `message` is the
event's `error.message` if truthy, else `str(event)`. -/
def newParseStream (decode : String → Except String Json) :
    List ReadResult → List String × StreamEnd
  | [] => ([], .exhausted)
  | .incompleteRead :: rest => newParseStream decode rest
  | .readErr m :: _ => ([], .errorWrapped (streamAbortMsg m))
  | .line raw :: rest =>
    let l := pyStrip raw
    if l == "" || !(strStartsWith l "data:") then newParseStream decode rest
    else
      match splitRemainder "data: " l with
      | none => ([], .uncaught indexErrMsg)
      | some payload =>
        if payload = "[DONE]" then ([], .done)
        else
          match decode payload with
          | .error _ => newParseStream decode rest
          | .ok (.obj eo) =>
            if jGetStr eo "type" = some "response.output_text.delta" ∨
               jGetStr eo "type" = some "response.message.delta" then
              let d1 : Json :=
                match jGet eo "delta" with
                | some v => if truthy v then v else .str ""
                | none => .str ""
              if truthy d1 then
                let p := newParseStream decode rest
                (pyStr d1 :: p.1, p.2)
              else newParseStream decode rest
            else if jGetStr eo "type" = some "response.completed" ∨
                    jGetStr eo "type" = some "response.completed.success" then
              ([], .done)
            else if jGetStr eo "type" = some "response.error" then
              match jGet eo "error" with
              | none => ([], .raisedError (pyStr (Json.obj eo)))
              | some (.obj errO) =>
                (match jGet errO "message" with
                 | some mv =>
                   if truthy mv then ([], .raisedError (pyStr mv))
                   else ([], .raisedError (pyStr (Json.obj eo)))
                 | none => ([], .raisedError (pyStr (Json.obj eo))))
              | some _ => ([], .uncaught attrErrMsg)
            else newParseStream decode rest
          | .ok _ => ([], .uncaught attrErrMsg)

/-- Contribution of one non-decisive read for the Responses-native
parser. -/
def newContrib (decode : String → Except String Json) :
    ReadResult → Option (List String)
  | .incompleteRead => some []
  | .readErr _ => none
  | .line raw =>
    let l := pyStrip raw
    if l == "" || !(strStartsWith l "data:") then some []
    else
      match splitRemainder "data: " l with
      | none => none
      | some payload =>
        if payload = "[DONE]" then none
        else
          match decode payload with
          | .error _ => some []
          | .ok (.obj eo) =>
            if jGetStr eo "type" = some "response.output_text.delta" ∨
               jGetStr eo "type" = some "response.message.delta" then
              let d1 : Json :=
                match jGet eo "delta" with
                | some v => if truthy v then v else .str ""
                | none => .str ""
              if truthy d1 then some [pyStr d1] else some []
            else if jGetStr eo "type" = some "response.completed" ∨
                    jGetStr eo "type" = some "response.completed.success" then
              none
            else if jGetStr eo "type" = some "response.error" then
              none
            else some []
          | .ok _ => none

/-- A non-decisive read prepends its contribution and the
Responses-native parser continues on the rest of the script. -/
theorem newParseStream_cons (decode : String → Except String Json)
    (i : ReadResult) (rest : List ReadResult) (ys : List String)
    (h : newContrib decode i = some ys) :
    newParseStream decode (i :: rest)
      = (ys ++ (newParseStream decode rest).1,
         (newParseStream decode rest).2) := by
  cases i with
  | incompleteRead =>
    simp only [newContrib, Option.some.injEq] at h
    subst h
    simp [newParseStream]
  | readErr m => simp [newContrib] at h
  | line raw =>
    simp only [newContrib] at h
    simp only [newParseStream]
    by_cases hskip : (pyStrip raw == "" || !(strStartsWith (pyStrip raw) "data:")) = true
    · rw [if_pos hskip] at h ⊢
      simp only [Option.some.injEq] at h
      subst h
      simp
    · rw [if_neg hskip] at h ⊢
      cases hsp : splitRemainder "data: " (pyStrip raw) with
      | none => simp [hsp] at h
      | some payload =>
        rw [hsp] at h
        try dsimp only at h
        try dsimp only
        by_cases hdone : payload = "[DONE]"
        · rw [if_pos hdone] at h
          simp at h
        · rw [if_neg hdone] at h ⊢
          cases hdec : decode payload with
          | error e => simp [hdec] at h; subst h; simp
          | ok ev =>
            rw [hdec] at h
            try dsimp only at h
            try dsimp only
            cases ev with
            | obj eo =>
              try dsimp only at h
              try dsimp only
              by_cases ht1 : jGetStr eo "type" = some "response.output_text.delta" ∨
                  jGetStr eo "type" = some "response.message.delta"
              · rw [if_pos ht1] at h ⊢
                cases hd : jGet eo "delta" with
                | none =>
                  rw [hd] at h
                  try dsimp only at h
                  try dsimp only
                  rw [if_neg (by decide)] at h ⊢
                  simp only [Option.some.injEq] at h
                  subst h
                  simp
                | some v =>
                  rw [hd] at h
                  try dsimp only at h
                  try dsimp only
                  by_cases htv : truthy v = true
                  · rw [if_pos htv] at h ⊢
                    rw [if_pos htv] at h ⊢
                    simp only [Option.some.injEq] at h
                    subst h
                    simp
                  · rw [if_neg htv] at h ⊢
                    rw [if_neg (by decide)] at h ⊢
                    simp only [Option.some.injEq] at h
                    subst h
                    simp
              · rw [if_neg ht1] at h ⊢
                by_cases ht2 : jGetStr eo "type" = some "response.completed" ∨
                    jGetStr eo "type" = some "response.completed.success"
                · rw [if_pos ht2] at h
                  simp at h
                · rw [if_neg ht2] at h ⊢
                  by_cases ht3 : jGetStr eo "type" = some "response.error"
                  · rw [if_pos ht3] at h
                    simp at h
                  · rw [if_neg ht3] at h ⊢
                    simp only [Option.some.injEq] at h
                    subst h
                    simp
            | null => simp at h
            | bool b => simp at h
            | num q => simp at h
            | str s => simp at h
            | arr l2 => simp at h

/-- A benign prefix of the read script contributes its fragments and the
Responses-native parser continues on the remainder. -/
theorem newParseStream_append (decode : String → Except String Json)
    (pre : List ReadResult)
    (hpre : ∀ i ∈ pre, (newContrib decode i).isSome = true)
    (tail : List ReadResult) :
    newParseStream decode (pre ++ tail)
      = (streamContribs (newContrib decode) pre ++ (newParseStream decode tail).1,
         (newParseStream decode tail).2) := by
  induction pre with
  | nil => simp [streamContribs]
  | cons i pre ih =>
    have hi := hpre i (by simp)
    obtain ⟨ys, hys⟩ := Option.isSome_iff_exists.mp hi
    have hpre2 : ∀ j ∈ pre, (newContrib decode j).isSome = true :=
      fun j hj => hpre j (by simp [hj])
    rw [List.cons_append, newParseStream_cons decode i _ ys hys, ih hpre2]
    simp [streamContribs, hys]

/-- A string starting with `"data:"` is non-empty. -/
theorem strStartsWith_data_nonempty (l : String)
    (h : strStartsWith l "data:" = true) : (l == "") = false := by
  cases hl : l == "" with
  | false => rfl
  | true =>
    have hl2 : l = "" := by simpa using hl
    subst hl2
    exact absurd h (by decide)

/-- A stripped line whose `data: `-remainder is `[DONE]` terminates the
Responses-native parser cleanly. -/
theorem newParseStream_line_done (decode : String → Except String Json)
    (dl : String) (rest : List ReadResult)
    (hsw : strStartsWith (pyStrip dl) "data:" = true)
    (hsp : splitRemainder "data: " (pyStrip dl) = some "[DONE]") :
    newParseStream decode (ReadResult.line dl :: rest) = ([], .done) := by
  simp only [newParseStream]
  rw [if_neg (by rw [strStartsWith_data_nonempty _ hsw, hsw]; decide), hsp]
  rfl

/-- A `data:` payload that fails to decode is skipped silently. -/
theorem newParseStream_line_malformed (decode : String → Except String Json)
    (dl : String) (rest : List ReadResult) (payload e : String)
    (hsw : strStartsWith (pyStrip dl) "data:" = true)
    (hsp : splitRemainder "data: " (pyStrip dl) = some payload)
    (hnd : payload ≠ "[DONE]")
    (hdec : decode payload = .error e) :
    newParseStream decode (ReadResult.line dl :: rest)
      = newParseStream decode rest := by
  simp only [newParseStream]
  rw [if_neg (by rw [strStartsWith_data_nonempty _ hsw, hsw]; decide), hsp]
  dsimp only
  rw [if_neg hnd, hdec]

/-- A delta event with a truthy `delta` yields it. -/
theorem newParseStream_line_delta (decode : String → Except String Json)
    (dl : String) (rest : List ReadResult) (payload : String)
    (eo : List (String × Json)) (d : Json)
    (hsw : strStartsWith (pyStrip dl) "data:" = true)
    (hsp : splitRemainder "data: " (pyStrip dl) = some payload)
    (hnd : payload ≠ "[DONE]")
    (hdec : decode payload = .ok (.obj eo))
    (ht : jGetStr eo "type" = some "response.output_text.delta" ∨
          jGetStr eo "type" = some "response.message.delta")
    (hd : jGet eo "delta" = some d)
    (htd : truthy d = true) :
    newParseStream decode (ReadResult.line dl :: rest)
      = (pyStr d :: (newParseStream decode rest).1,
         (newParseStream decode rest).2) := by
  simp only [newParseStream]
  rw [if_neg (by rw [strStartsWith_data_nonempty _ hsw, hsw]; decide), hsp]
  dsimp only
  rw [if_neg hnd, hdec]
  dsimp only
  rw [if_pos ht, hd]
  dsimp only
  rw [if_pos htd, if_pos htd]

/-- A completed event terminates the stream cleanly. -/
theorem newParseStream_line_completed (decode : String → Except String Json)
    (dl : String) (rest : List ReadResult) (payload : String)
    (eo : List (String × Json))
    (hsw : strStartsWith (pyStrip dl) "data:" = true)
    (hsp : splitRemainder "data: " (pyStrip dl) = some payload)
    (hnd : payload ≠ "[DONE]")
    (hdec : decode payload = .ok (.obj eo))
    (ht : jGetStr eo "type" = some "response.completed" ∨
          jGetStr eo "type" = some "response.completed.success") :
    newParseStream decode (ReadResult.line dl :: rest) = ([], .done) := by
  have ht1 : ¬(jGetStr eo "type" = some "response.output_text.delta" ∨
      jGetStr eo "type" = some "response.message.delta") := by
    rcases ht with h2 | h2 <;> rw [h2] <;> decide
  simp only [newParseStream]
  rw [if_neg (by rw [strStartsWith_data_nonempty _ hsw, hsw]; decide), hsp]
  dsimp only
  rw [if_neg hnd, hdec]
  dsimp only
  rw [if_neg ht1, if_pos ht]

/-- A `response.error` event whose `error.message` is truthy raises it. -/
theorem newParseStream_line_error_msg (decode : String → Except String Json)
    (dl : String) (rest : List ReadResult) (payload : String)
    (eo errO : List (String × Json)) (mv : Json)
    (hsw : strStartsWith (pyStrip dl) "data:" = true)
    (hsp : splitRemainder "data: " (pyStrip dl) = some payload)
    (hnd : payload ≠ "[DONE]")
    (hdec : decode payload = .ok (.obj eo))
    (ht : jGetStr eo "type" = some "response.error")
    (herr : jGet eo "error" = some (.obj errO))
    (hmsg : jGet errO "message" = some mv)
    (htm : truthy mv = true) :
    newParseStream decode (ReadResult.line dl :: rest)
      = ([], .raisedError (pyStr mv)) := by
  have ht1 : ¬(jGetStr eo "type" = some "response.output_text.delta" ∨
      jGetStr eo "type" = some "response.message.delta") := by
    rw [ht]; decide
  have ht2 : ¬(jGetStr eo "type" = some "response.completed" ∨
      jGetStr eo "type" = some "response.completed.success") := by
    rw [ht]; decide
  simp only [newParseStream]
  rw [if_neg (by rw [strStartsWith_data_nonempty _ hsw, hsw]; decide), hsp]
  dsimp only
  rw [if_neg hnd, hdec]
  dsimp only
  rw [if_neg ht1, if_neg ht2, if_pos ht, herr]
  dsimp only
  rw [hmsg]
  dsimp only
  rw [if_pos htm]

/-- A `response.error` event without a truthy `error.message` raises the
whole event rendered as text. -/
theorem newParseStream_line_error_fallback (decode : String → Except String Json)
    (dl : String) (rest : List ReadResult) (payload : String)
    (eo : List (String × Json))
    (hsw : strStartsWith (pyStrip dl) "data:" = true)
    (hsp : splitRemainder "data: " (pyStrip dl) = some payload)
    (hnd : payload ≠ "[DONE]")
    (hdec : decode payload = .ok (.obj eo))
    (ht : jGetStr eo "type" = some "response.error")
    (hfall : jGet eo "error" = none ∨
      (∃ errO, jGet eo "error" = some (.obj errO) ∧
        (jGet errO "message" = none ∨
         ∃ mv, jGet errO "message" = some mv ∧ truthy mv = false))) :
    newParseStream decode (ReadResult.line dl :: rest)
      = ([], .raisedError (pyStr (Json.obj eo))) := by
  have ht1 : ¬(jGetStr eo "type" = some "response.output_text.delta" ∨
      jGetStr eo "type" = some "response.message.delta") := by
    rw [ht]; decide
  have ht2 : ¬(jGetStr eo "type" = some "response.completed" ∨
      jGetStr eo "type" = some "response.completed.success") := by
    rw [ht]; decide
  simp only [newParseStream]
  rw [if_neg (by rw [strStartsWith_data_nonempty _ hsw, hsw]; decide), hsp]
  dsimp only
  rw [if_neg hnd, hdec]
  dsimp only
  rw [if_neg ht1, if_neg ht2, if_pos ht]
  rcases hfall with herr | ⟨errO, herr, hm⟩
  · rw [herr]
  · rw [herr]
    dsimp only
    rcases hm with hmsg | ⟨mv, hmsg, htm⟩
    · rw [hmsg]
    · rw [hmsg]
      dsimp only
      rw [if_neg (by rw [htm]; decide)]

/-- C7 (amended).  Over any benign prefix of reads: a `data:` payload that
fails to decode is skipped silently and the stream continues; a
`response.output_text.delta` / `response.message.delta` event yields its
truthy `delta` as text; `[DONE]` and `response.completed` /
`response.completed.success` events terminate the stream cleanly; and a
`response.error` event raises immediately — with the event's embedded
`error.message` when that message is truthy, and with the whole event
rendered as text when the `error` or `message` field is missing or the
message is falsy (e.g. the empty string). -/
theorem openai_new_stream_spec (decode : String → Except String Json)
    (pre : List ReadResult)
    (hpre : ∀ i ∈ pre, (newContrib decode i).isSome = true) :
    (∀ dl rest, strStartsWith (pyStrip dl) "data:" = true →
      splitRemainder "data: " (pyStrip dl) = some "[DONE]" →
      newParseStream decode (pre ++ ReadResult.line dl :: rest)
        = (streamContribs (newContrib decode) pre, .done)) ∧
    (∀ dl rest payload eo, strStartsWith (pyStrip dl) "data:" = true →
      splitRemainder "data: " (pyStrip dl) = some payload →
      payload ≠ "[DONE]" → decode payload = .ok (.obj eo) →
      (jGetStr eo "type" = some "response.completed" ∨
       jGetStr eo "type" = some "response.completed.success") →
      newParseStream decode (pre ++ ReadResult.line dl :: rest)
        = (streamContribs (newContrib decode) pre, .done)) ∧
    (∀ dl rest payload e, strStartsWith (pyStrip dl) "data:" = true →
      splitRemainder "data: " (pyStrip dl) = some payload →
      payload ≠ "[DONE]" → decode payload = .error e →
      newParseStream decode (pre ++ ReadResult.line dl :: rest)
        = (streamContribs (newContrib decode) pre
             ++ (newParseStream decode rest).1,
           (newParseStream decode rest).2)) ∧
    (∀ dl rest payload eo d, strStartsWith (pyStrip dl) "data:" = true →
      splitRemainder "data: " (pyStrip dl) = some payload →
      payload ≠ "[DONE]" → decode payload = .ok (.obj eo) →
      (jGetStr eo "type" = some "response.output_text.delta" ∨
       jGetStr eo "type" = some "response.message.delta") →
      jGet eo "delta" = some d → truthy d = true →
      newParseStream decode (pre ++ ReadResult.line dl :: rest)
        = (streamContribs (newContrib decode) pre
             ++ pyStr d :: (newParseStream decode rest).1,
           (newParseStream decode rest).2)) ∧
    (∀ dl rest payload eo errO mv, strStartsWith (pyStrip dl) "data:" = true →
      splitRemainder "data: " (pyStrip dl) = some payload →
      payload ≠ "[DONE]" → decode payload = .ok (.obj eo) →
      jGetStr eo "type" = some "response.error" →
      jGet eo "error" = some (.obj errO) →
      jGet errO "message" = some mv → truthy mv = true →
      newParseStream decode (pre ++ ReadResult.line dl :: rest)
        = (streamContribs (newContrib decode) pre,
           .raisedError (pyStr mv))) ∧
    (∀ dl rest payload eo, strStartsWith (pyStrip dl) "data:" = true →
      splitRemainder "data: " (pyStrip dl) = some payload →
      payload ≠ "[DONE]" → decode payload = .ok (.obj eo) →
      jGetStr eo "type" = some "response.error" →
      (jGet eo "error" = none ∨
        (∃ errO, jGet eo "error" = some (.obj errO) ∧
          (jGet errO "message" = none ∨
           ∃ mv, jGet errO "message" = some mv ∧ truthy mv = false))) →
      newParseStream decode (pre ++ ReadResult.line dl :: rest)
        = (streamContribs (newContrib decode) pre,
           .raisedError (pyStr (Json.obj eo)))) := by
  refine ⟨?_, ?_, ?_, ?_, ?_, ?_⟩
  · intro dl rest hsw hsp
    rw [newParseStream_append decode pre hpre,
      newParseStream_line_done decode dl rest hsw hsp]
    simp
  · intro dl rest payload eo hsw hsp hnd hdec ht
    rw [newParseStream_append decode pre hpre,
      newParseStream_line_completed decode dl rest payload eo hsw hsp hnd hdec ht]
    simp
  · intro dl rest payload e hsw hsp hnd hdec
    rw [newParseStream_append decode pre hpre,
      newParseStream_line_malformed decode dl rest payload e hsw hsp hnd hdec]
  · intro dl rest payload eo d hsw hsp hnd hdec ht hd htd
    rw [newParseStream_append decode pre hpre,
      newParseStream_line_delta decode dl rest payload eo d hsw hsp hnd hdec ht hd htd]
  · intro dl rest payload eo errO mv hsw hsp hnd hdec ht herr hmsg htm
    rw [newParseStream_append decode pre hpre,
      newParseStream_line_error_msg decode dl rest payload eo errO mv
        hsw hsp hnd hdec ht herr hmsg htm]
    simp
  · intro dl rest payload eo hsw hsp hnd hdec ht hfall
    rw [newParseStream_append decode pre hpre,
      newParseStream_line_error_fallback decode dl rest payload eo
        hsw hsp hnd hdec ht hfall]
    simp

/-- Decode oracle for the C7 witness: one malformed payload, one delta
event. -/
def newStreamDecodeW : String → Except String Json := fun c =>
  if c = "D1" then
    .ok (Json.obj [("type", Json.str "response.output_text.delta"),
                   ("delta", Json.str "Hola")])
  else .error "Expecting value: line 1 column 1"

/-- Witness for C7: a malformed chunk is skipped, a delta event yields its
text, and `data: [DONE]` terminates. -/
theorem openai_new_stream_spec_witness :
    newParseStream newStreamDecodeW
        ([ReadResult.line "data: BAD", ReadResult.line "data: D1"]
          ++ [ReadResult.line "data: [DONE]"])
      = (["Hola"], .done) := by
  have h := (openai_new_stream_spec newStreamDecodeW
      [ReadResult.line "data: BAD", ReadResult.line "data: D1"]
      (by decide)).1 "data: [DONE]" [] (by decide) (by decide)
  rw [h]
  decide

/-- Decode oracle for the C7 counterexample: a `response.error` event
whose `error.message` field is present but empty. -/
def newStreamDecodeCex : String → Except String Json := fun _ =>
  .ok (Json.obj [("type", Json.str "response.error"),
                 ("error", Json.obj [("message", Json.str "")])])

/-- Counterexample to C7 as stated: on a `response.error` event whose
`error.message` field exists but is the empty string, the parser raises
the whole event rendered as text, not the embedded (empty) message. -/
theorem openai_new_stream_empty_message_counterexample :
    newParseStream newStreamDecodeCex [ReadResult.line "data: E1"]
      = ([], .raisedError (pyStr (Json.obj
          [("type", Json.str "response.error"),
           ("error", Json.obj [("message", Json.str "")])]))) ∧
    jGet [("message", Json.str "")] "message" = some (Json.str "") ∧
    pyStr (Json.obj [("type", Json.str "response.error"),
        ("error", Json.obj [("message", Json.str "")])]) ≠ "" := by
  refine ⟨by decide, rfl, by decide⟩

/-- C10.  In both stream parsers, a line that starts with `data:` but does
not contain the separator `data: ` (for example `data:[DONE]`) makes the
one-element result of `split('data: ', 1)` be indexed at position 1: an
uncaught `IndexError` escapes the generator — the line is not skipped, the
stream does not terminate cleanly, and the engine's wrapped parse error is
not raised. -/
theorem stream_parsers_uncaught_index_error
    (decode : String → Except String Json) :
    chatParseStream decode [ReadResult.line "data:[DONE]"]
        = ([], .uncaught indexErrMsg) ∧
    newParseStream decode [ReadResult.line "data:[DONE]"]
        = ([], .uncaught indexErrMsg) ∧
    (∀ m, (StreamEnd.uncaught indexErrMsg) ≠ StreamEnd.errorWrapped m) ∧
    (StreamEnd.uncaught indexErrMsg) ≠ StreamEnd.done := by
  refine ⟨?_, ?_, fun m => by simp, by simp⟩
  · simp only [chatParseStream]
    rw [if_pos (by decide), show splitRemainder "data: " (pyStrip "data:[DONE]")
      = none by decide]
  · simp only [newParseStream]
    rw [if_neg (by decide), show splitRemainder "data: " (pyStrip "data:[DONE]")
      = none by decide]

/-! ## `engines/openai_new.py` — `OpenaiNewTranslate.get_result`
(non-streaming path, lines 114–132) -/

/-- One `output[].content[]` segment's contribution (openai_new.py lines
127–131): `str(c['text'])` when the segment is a dict whose `type` is
`output_text` or `text` and whose `text` is truthy, else nothing. -/
def contentPart : Json → Option String
  | .obj co =>
    if jGetStr co "type" = some "output_text" ∨
       jGetStr co "type" = some "text" then
      match jGet co "text" with
      | some tv => if truthy tv then some (pyStr tv) else none
      | none => none
    else none
  | _ => none

/-- The inner loop of the fallback for one `output` entry (openai_new.py
lines 125–131): `content = (item.get('content') or []) if
isinstance(item, dict) else []` followed by the `for c in content` loop
(which raises `TypeError` when `content` is a truthy non-iterable). -/
def itemParts (item : Json) : Except String (List String) :=
  let content : Json :=
    match item with
    | .obj io =>
      match jGet io "content" with
      | some cv => if truthy cv then cv else .arr []
      | none => .arr []
    | _ => .arr []
  match pyIter content with
  | .error e => .error e
  | .ok cs => .ok (cs.filterMap contentPart)

/-- The outer `for item in …` loop accumulating `parts` in order. -/
def collectParts : List Json → Except String (List String)
  | [] => .ok []
  | item :: rest =>
    match itemParts item with
    | .error e => .error e
    | .ok ps =>
      match collectParts rest with
      | .error e => .error e
      | .ok qs => .ok (ps ++ qs)

/-- The fallback traversal (openai_new.py lines 123–132):
`for item in (data.get('output') or []): …; return ''.join(parts)`. -/
def outputFallback (o : List (String × Json)) : Except String String :=
  let outv : Json := (jGet o "output").getD Json.null
  match pyIter (if truthy outv then outv else .arr []) with
  | .error e => .error e
  | .ok items =>
    match collectParts items with
    | .error e => .error e
    | .ok parts => .ok (String.join parts)

/-- `OpenaiNewTranslate.get_result` (openai_new.py lines 114–132) for the
streaming-off configuration, applied to the decoded JSON payload: prefer
a top-level `output_text` (`str(… or '')`), else traverse
`output[].content[]`; a non-dict payload raises `AttributeError` at
`data.get('output')`. -/
def OpenaiNewTranslate.get_result (data : Json) : Except String String :=
  match data with
  | .obj o =>
    match jGet o "output_text" with
    | some v => .ok (if truthy v then pyStr v else "")
    | none => outputFallback o
  | _ => .error attrErrMsg

/-- Spec-side description of what one `output` entry contributes,
following the specification's words: the `text` of every content segment
(an object) whose `type` is `output_text` or `text` (and whose text is
truthy), segments of any other type contributing nothing. -/
def itemSegs : Json → List String
  | .obj io =>
    match jGet io "content" with
    | some (.arr cs) => cs.filterMap contentPart
    | _ => []
  | _ => []

/-- Spec-side in-order concatenation over a list of `output` entries. -/
def outputSegs : List Json → List String
  | [] => []
  | item :: rest => itemSegs item ++ outputSegs rest

/-- The `output` entries of the payload, when they form an array. -/
def outputArr (o : List (String × Json)) : List Json :=
  match jGet o "output" with
  | some (.arr l) => l
  | _ => []

/-- Spec-side result of the fallback path: in-order concatenation of the
qualifying segment texts. -/
def specOutputConcat (o : List (String × Json)) : String :=
  String.join (outputSegs (outputArr o))

/-- Structural well-formedness of one `output` entry: its `content`
field, when present and truthy, is an array. -/
def contentShapedB : Json → Bool
  | .obj io =>
    match jGet io "content" with
    | none => true
    | some (.arr _) => true
    | some v => !truthy v
  | _ => true

/-- Structural well-formedness of the payload's `output` field: when
present and truthy it is an array of shaped entries. -/
def outputShapedB (o : List (String × Json)) : Bool :=
  match jGet o "output" with
  | none => true
  | some (.arr items) => items.all contentShapedB
  | some v => !truthy v

/-- On a shaped entry the code's inner loop equals the spec-side
contribution. -/
theorem itemParts_eq_itemSegs (item : Json)
    (h : contentShapedB item = true) :
    itemParts item = .ok (itemSegs item) := by
  cases item with
  | obj io =>
    simp only [contentShapedB] at h
    simp only [itemParts, itemSegs]
    cases hc : jGet io "content" with
    | none => rfl
    | some cv =>
      rw [hc] at h
      cases cv with
      | arr cs =>
        cases cs with
        | nil => rfl
        | cons c ct => rfl
      | null => rfl
      | bool b => cases b with
        | false => rfl
        | true => simp [truthy] at h
      | num q =>
        by_cases hq : q = 0
        · subst hq; rfl
        · simp [truthy, hq] at h
      | str s =>
        by_cases hs : s = ""
        · subst hs; rfl
        · simp [truthy, hs] at h
      | obj fields =>
        cases fields with
        | nil => rfl
        | cons f ft => simp [truthy] at h
  | null => rfl
  | bool b => rfl
  | num q => rfl
  | str s => rfl
  | arr l => rfl

/-- On shaped entries the code's outer loop equals the spec-side
concatenation. -/
theorem collectParts_eq_outputSegs (items : List Json)
    (h : ∀ i ∈ items, contentShapedB i = true) :
    collectParts items = .ok (outputSegs items) := by
  induction items with
  | nil => rfl
  | cons item rest ih =>
    simp only [collectParts, outputSegs]
    rw [itemParts_eq_itemSegs item (h item (by simp)),
      ih (fun j hj => h j (by simp [hj]))]

/-- C6 (amended).  On a JSON object payload, `get_result` returns the
top-level `output_text` coerced to a string whenever that field is
present — the empty string when its value is falsy (null, false, 0, empty
string/array/object) — and otherwise, for payloads whose `output` /
`content` fields are array-shaped where truthy, the in-order
concatenation of the `text` of every content segment that is an object
with type `output_text` or `text` and a truthy `text`; segments of any
other type (e.g. reasoning segments) contribute nothing; a non-object
payload raises instead of returning. -/
theorem openai_new_get_result_spec :
    (∀ o v, jGet o "output_text" = some v →
      OpenaiNewTranslate.get_result (.obj o)
        = .ok (if truthy v = true then pyStr v else "")) ∧
    (∀ o, jGet o "output_text" = none → outputShapedB o = true →
      OpenaiNewTranslate.get_result (.obj o) = .ok (specOutputConcat o)) ∧
    (∀ elems, OpenaiNewTranslate.get_result (.arr elems)
        = .error attrErrMsg) := by
  refine ⟨?_, ?_, fun elems => rfl⟩
  · intro o v hv
    simp only [OpenaiNewTranslate.get_result]
    rw [hv]
  · intro o hv hshape
    simp only [OpenaiNewTranslate.get_result]
    rw [hv]
    simp only [outputFallback, specOutputConcat, outputArr]
    simp only [outputShapedB] at hshape
    cases ho : jGet o "output" with
    | none => rfl
    | some outv =>
      rw [ho] at hshape
      cases outv with
      | arr items =>
        simp only [List.all_eq_true] at hshape
        cases items with
        | nil =>
          rfl
        | cons item rest =>
          simp only [Option.getD]
          rw [if_pos (by simp [truthy])]
          simp only [pyIter]
          rw [collectParts_eq_outputSegs (item :: rest) hshape]
      | null => rfl
      | bool b =>
        cases b with
        | false => rfl
        | true => simp [truthy] at hshape
      | num q =>
        by_cases hq : q = 0
        · subst hq; rfl
        · simp [truthy, hq] at hshape
      | str s =>
        by_cases hs : s = ""
        · subst hs; rfl
        · simp [truthy, hs] at hshape
      | obj fields =>
        cases fields with
        | nil => rfl
        | cons f ft => simp [truthy] at hshape

/-- Witness for C6: a present `output_text` wins; without it, a payload
holding a reasoning segment and an `output_text` segment yields only the
latter's text. -/
theorem openai_new_get_result_spec_witness :
    OpenaiNewTranslate.get_result (Json.obj [("output_text", Json.str "Bonjour")])
        = .ok "Bonjour" ∧
    OpenaiNewTranslate.get_result (Json.obj [("output", Json.arr
        [Json.obj [("content", Json.arr
          [Json.obj [("type", Json.str "reasoning"),
                     ("text", Json.str "thinking…")],
           Json.obj [("type", Json.str "output_text"),
                     ("text", Json.str "Hi")]])]])])
        = .ok "Hi" := by
  constructor
  · have h := openai_new_get_result_spec.1
      [("output_text", Json.str "Bonjour")] (Json.str "Bonjour") rfl
    rw [h]
    rfl
  · have h := openai_new_get_result_spec.2.1
      [("output", Json.arr
        [Json.obj [("content", Json.arr
          [Json.obj [("type", Json.str "reasoning"),
                     ("text", Json.str "thinking…")],
           Json.obj [("type", Json.str "output_text"),
                     ("text", Json.str "Hi")]])]])]
      rfl (by decide)
    rw [h]
    rfl

/-- Counterexample to C6 as stated: with `output_text` present but
`false` (non-null), the code returns the empty string, not the
string-coercion `"False"` of the field. -/
theorem openai_new_get_result_falsy_counterexample :
    OpenaiNewTranslate.get_result (Json.obj [("output_text", Json.bool false)])
        = .ok "" ∧
    pyStr (Json.bool false) = "False" ∧
    ("" : String) ≠ "False" :=
  ⟨rfl, rfl, by decide⟩

end ET
